import Mathlib

/-!
Verification development for the hamcrest-rust matcher library.

The repository provides two matchers:

* `close_to` (src/matchers/close_to.rs): approximate equality of IEEE-754
  binary floating-point numbers, generic over the float type `T` via the
  `Float + Zero + FloatMinPositive` trait bounds.  Its `matches` method
  computes `a = |expected|`, `b = |actual|`, `d = |a - b|` and declares the
  values close when
  `a == b  ||  ((a == 0 || b == 0 || d < MIN_POSITIVE) && d < epsilon * MIN_POSITIVE)
            ||  d / (a + b).min(MAX) < epsilon`,
  returning Ok on success and an error string naming the actual value otherwise.

* `type_of` (src/matchers/type_of.rs): runtime type-identity comparison of
  opaque `TypeId` values.

The embedding models an IEEE-754 binary float of a format `fmt`
(binary32 or binary64) as either a NaN, a signed infinity, or a signed
integer magnitude `m` counted in units of the smallest positive subnormal
`2^(emin - prec + 1)` (that is `2^-149` for binary32 and `2^-1074` for
binary64): every finite IEEE float of the format is exactly an integer
multiple of that quantum.  Arithmetic is exact integer/rational arithmetic
followed by IEEE round-to-nearest-even onto the representable grid, with
overflow to infinity, which is precisely the IEEE-754 semantics of
`+`, `-`, `*`, `/` used by the Rust source.  Keeping all computation in ℕ/ℤ
makes every operation kernel-evaluable, so concrete scenarios can be
settled by `decide`.
-/

set_option maxRecDepth 8000
set_option exponentiation.threshold 8200

namespace Hamcrest

/-- Bit weights for the binary search inside `natLog2`. -/
def log2bits : List ℕ := [4096, 2048, 1024, 512, 256, 128, 64, 32, 16, 8, 4, 2, 1]

/-- `natLog2 n = ⌊log₂ n⌋` for `1 ≤ n < 2 ^ 8192`, by binary search on the
exponent (constant recursion depth, so the kernel evaluates it cheaply on
the large magnitudes of binary64 values).  Every magnitude arising from an
operation on representable binary32/binary64 values is far below `2 ^ 8192`. -/
def natLog2 (n : ℕ) : ℕ :=
  log2bits.foldl (fun e k => if 2 ^ (e + k) ≤ n then e + k else e) 0

/-- An IEEE-754 binary floating-point format.

`prec` is the significand width in bits (24 for binary32, 53 for binary64).
`scale` is `prec - 1 - emin`, so the smallest positive subnormal is
`2^(-scale)` (149 for binary32, 1074 for binary64); finite values are
counted as integer multiples of this quantum.
`maxM` is the largest finite magnitude in quantum units, namely
`(2^prec - 1) * 2^(emax - prec + 1 + scale)`. -/
structure FpFormat where
  prec : ℕ
  scale : ℕ
  maxM : ℕ
deriving DecidableEq

/-- IEEE-754 binary32 (`f32`): prec 24, emin -126, emax 127. -/
def fmt32 : FpFormat := ⟨24, 149, (2 ^ 24 - 1) * 2 ^ 253⟩

/-- IEEE-754 binary64 (`f64`): prec 53, emin -1022, emax 1023. -/
def fmt64 : FpFormat := ⟨53, 1074, (2 ^ 53 - 1) * 2 ^ 2045⟩

/-- A floating-point datum of a format: NaN, a signed infinity, or a finite
value `(-1)^neg * m * 2^(-scale)` given by its sign and its magnitude `m`
in quantum units (`neg = true` with `m = 0` is IEEE negative zero). -/
inductive Fp where
  | nan : Fp
  | inf (neg : Bool) : Fp
  | fin (neg : Bool) (m : ℕ) : Fp
deriving DecidableEq

namespace Fp

/-- The signed magnitude of a finite value, in quantum units. -/
def vInt (s : Bool) (m : ℕ) : ℤ := cond s (-(m : ℤ)) (m : ℤ)

/-- `Float::abs`. -/
def abs : Fp → Fp
  | nan => nan
  | inf _ => inf false
  | fin _ m => fin false m

/-- IEEE negation. -/
def neg : Fp → Fp
  | nan => nan
  | inf s => inf (!s)
  | fin s m => fin (!s) m

/-- IEEE equality `==`: NaN is equal to nothing, `-0 == +0`. -/
def beq (x y : Fp) : Bool :=
  match x, y with
  | nan, _ => false
  | _, nan => false
  | inf s, inf t => decide (s = t)
  | inf _, fin _ _ => false
  | fin _ _, inf _ => false
  | fin s m, fin t n => decide (vInt s m = vInt t n)

/-- IEEE strict order `<`: any comparison involving NaN is false. -/
def blt (x y : Fp) : Bool :=
  match x, y with
  | nan, _ => false
  | _, nan => false
  | inf s, inf t => s && !t
  | inf s, fin _ _ => s
  | fin _ _, inf t => !t
  | fin s m, fin t n => decide (vInt s m < vInt t n)

/-- Round the positive rational `N / D` (in quantum units) to the format's
representable grid with round-to-nearest, ties to even.  Below `2^prec` the
grid step is one quantum (the subnormal range and the lowest binade), above
it the step at binade `e` is `2^(e - prec + 1)`. -/
def roundToGrid (fmt : FpFormat) (N D : ℕ) : ℕ :=
  let u := if N < 2 ^ fmt.prec * D then 0 else natLog2 (N / D) - (fmt.prec - 1)
  let D' := D * 2 ^ u
  let q := N / D'
  let r := N % D'
  let q' :=
    if 2 * r < D' then q
    else if D' < 2 * r then q + 1
    else if q % 2 = 0 then q else q + 1
  q' * 2 ^ u

/-- Round the positive rational `N / D` (in quantum units), attach the sign
`s`, and overflow to a signed infinity beyond the largest finite magnitude. -/
def roundM (fmt : FpFormat) (s : Bool) (N D : ℕ) : Fp :=
  let m' := roundToGrid fmt N D
  if fmt.maxM < m' then inf s else fin s m'

/-- IEEE addition: the exact sum, rounded.  An exact zero sum is `+0` unless
both addends are negative (so `-0 + -0 = -0`), per round-to-nearest. -/
def add (fmt : FpFormat) : Fp → Fp → Fp
  | nan, _ => nan
  | _, nan => nan
  | inf s, inf t => if s = t then inf s else nan
  | inf s, fin _ _ => inf s
  | fin _ _, inf t => inf t
  | fin s m, fin t n =>
    let M := vInt s m + vInt t n
    if M = 0 then fin (s && t) 0
    else roundM fmt (decide (M < 0)) M.natAbs 1

/-- IEEE subtraction `x - y = x + (-y)`. -/
def sub (fmt : FpFormat) (x y : Fp) : Fp := add fmt x (neg y)

/-- IEEE multiplication: the exact product, rounded; `inf * 0 = NaN`.
The exact product of magnitudes `m * n` quantum² units is `m * n / 2^scale`
in quantum units. -/
def mul (fmt : FpFormat) : Fp → Fp → Fp
  | nan, _ => nan
  | _, nan => nan
  | inf s, inf t => inf (xor s t)
  | inf s, fin t n => if n = 0 then nan else inf (xor s t)
  | fin s m, inf t => if m = 0 then nan else inf (xor s t)
  | fin s m, fin t n =>
    if m * n = 0 then fin (xor s t) 0
    else roundM fmt (xor s t) (m * n) (2 ^ fmt.scale)

/-- IEEE division: the exact quotient, rounded; `inf / inf = NaN`,
`0 / 0 = NaN`, finite nonzero over zero is a signed infinity.  The exact
quotient `(m * 2^(-scale)) / (n * 2^(-scale)) = m / n` is `m * 2^scale / n`
in quantum units. -/
def div (fmt : FpFormat) : Fp → Fp → Fp
  | nan, _ => nan
  | _, nan => nan
  | inf _, inf _ => nan
  | inf s, fin t _ => inf (xor s t)
  | fin s _, inf t => fin (xor s t) 0
  | fin s m, fin t n =>
    if n = 0 then (if m = 0 then nan else inf (xor s t))
    else if m = 0 then fin (xor s t) 0
    else roundM fmt (xor s t) (m * 2 ^ fmt.scale) n

/-- `Float::min`, i.e. IEEE `minNum`/libm `fmin` as used by Rust: if one
operand is NaN the other is returned, otherwise the smaller operand. -/
def min : Fp → Fp → Fp
  | nan, y => y
  | x, nan => x
  | x, y => if blt y x then y else x

/-- `Zero::zero()`: positive zero. -/
def zero : Fp := fin false 0

/-- `FloatMinPositive::min_positive_value()`: the smallest positive
normalized value `2^emin`, which is `2^(prec - 1)` quantum units. -/
def minPositiveValue (fmt : FpFormat) : Fp := fin false (2 ^ (fmt.prec - 1))

/-- `Float::max_value()`: the largest finite value. -/
def maxValue (fmt : FpFormat) : Fp := fin false fmt.maxM

/-- A rendering of the value used for the Rust Debug formatting in the
mismatch message (exact text is an implementation choice in the spec). -/
def debugStr : Fp → String
  | nan => "NaN"
  | inf s => cond s "-inf" "inf"
  | fin s m => (cond s "-" "") ++ toString m ++ "q"

/-- Is this datum NaN? -/
def isNan : Fp → Bool
  | nan => true
  | _ => false

end Fp

/-- Round a nonnegative rational literal `num / den` to the nearest
representable value of the format: the value a Rust decimal literal such as
`1e-40_f32` or `0.01` denotes. -/
def fpOfPos (fmt : FpFormat) (num den : ℕ) : Fp :=
  if num = 0 ∨ den = 0 then Fp.fin false 0
  else Fp.roundM fmt false (num * 2 ^ fmt.scale) den

/-- `MatchResult = Result<(), String>` from the matcher framework. -/
abbrev MatchResult := Except String Unit

deriving instance DecidableEq for Except

/-- The `success()` constructor of the framework. -/
def success : MatchResult := Except.ok ()

/-- Did a `MatchResult` declare a match?  (`Ok` vs `Err`.) -/
def isMatch : MatchResult → Bool
  | Except.ok _ => true
  | Except.error _ => false

/-- The `CloseTo<T>` matcher struct: an expected value and an epsilon. -/
structure CloseTo where
  expected : Fp
  epsilon : Fp
deriving DecidableEq

namespace CloseTo

/-- The boolean `close` computed inside `CloseTo::matches` (src/matchers/
close_to.rs lines 42-55): with `a = |expected|`, `b = |actual|`,
`d = |a - b|`,
`a == b || ((a == 0 || b == 0 || d < MIN_POSITIVE) && d < epsilon * MIN_POSITIVE)
       || d / (a + b).min(MAX) < epsilon`. -/
def closeB (fmt : FpFormat) (self : CloseTo) (actual : Fp) : Bool :=
  let a := self.expected.abs
  let b := actual.abs
  let d := (Fp.sub fmt a b).abs
  Fp.beq a b
    || ((Fp.beq a Fp.zero || Fp.beq b Fp.zero
          || Fp.blt d (Fp.minPositiveValue fmt))
        && Fp.blt d (Fp.mul fmt self.epsilon (Fp.minPositiveValue fmt)))
    || Fp.blt (Fp.div fmt d (Fp.min (Fp.add fmt a b) (Fp.maxValue fmt)))
        self.epsilon

/-- `CloseTo::matches`: `Ok(())` when close, otherwise
an error whose message starts with "was " followed by the actual value. -/
def matchesM (fmt : FpFormat) (self : CloseTo) (actual : Fp) : MatchResult :=
  if self.closeB fmt actual then success
  else Except.error ("was " ++ actual.debugStr)

end CloseTo

/-- The `close_to` constructor function. -/
def close_to (expected epsilon : Fp) : CloseTo :=
  { expected := expected, epsilon := epsilon }

/-- An opaque runtime type identifier (`std::any::TypeId`): distinct types
have distinct identifiers; the embedding renders them as natural numbers. -/
structure TypeId where
  id : ℕ
deriving DecidableEq

/-- The `TypeOf` matcher struct, holding the type identifier recorded at
construction time (the source's unnamed tuple field `.0`). -/
structure TypeOf where
  tid : TypeId
deriving DecidableEq

/-- `TypeOf::matches` (src/matchers/type_of.rs lines 24-33): in Rust the
compared identifier is `TypeId::of::<T>()`, determined by the static type
`T` of the argument rather than by its value, which the method ignores.
The embedding therefore receives the argument's type identifier
`typeIdOfT` alongside the ignored argument value. -/
def TypeOf.matchesM {α : Type} (self : TypeOf) (typeIdOfT : TypeId) (_value : α) :
    MatchResult :=
  if self.tid = typeIdOfT then success
  else Except.error ("type_of(" ++ toString typeIdOfT.id ++ ")")

/-- The `type_of::<T>()` constructor: records `TypeId::of::<T>()`. -/
def type_of (t : TypeId) : TypeOf := ⟨t⟩

/-! Helper lemmas shared by the claim theorems. -/

/-- Absolute value discards the sign of a negation. -/
theorem Fp.abs_neg (x : Fp) : x.neg.abs = x.abs := by
  cases x <;> rfl

/-- IEEE equality is symmetric. -/
theorem Fp.beq_comm (x y : Fp) : Fp.beq x y = Fp.beq y x := by
  cases x <;> cases y <;> simp only [Fp.beq] <;> rw [decide_eq_decide] <;>
    exact eq_comm

/-- The sign attached by `roundM` is discarded by `abs`. -/
theorem Fp.abs_roundM (fmt : FpFormat) (s : Bool) (N D : ℕ) :
    (Fp.roundM fmt s N D).abs = Fp.roundM fmt false N D := by
  unfold Fp.roundM
  by_cases h : fmt.maxM < Fp.roundToGrid fmt N D <;> simp [h, Fp.abs]

/-- Negating the sign flag negates the signed magnitude. -/
theorem Fp.vInt_not (s : Bool) (m : ℕ) : Fp.vInt (!s) m = -Fp.vInt s m := by
  cases s <;> simp [Fp.vInt]

/-- IEEE addition is commutative. -/
theorem Fp.add_comm (fmt : FpFormat) (x y : Fp) :
    Fp.add fmt x y = Fp.add fmt y x := by
  cases x <;> cases y <;> simp only [Fp.add]
  case inf.inf s t => cases s <;> cases t <;> rfl
  case fin.fin s m t n =>
    rw [Int.add_comm (Fp.vInt s m), Bool.and_comm]

/-- The magnitude of an IEEE difference does not depend on the operand
order. -/
theorem Fp.abs_sub_comm (fmt : FpFormat) (x y : Fp) :
    (Fp.sub fmt x y).abs = (Fp.sub fmt y x).abs := by
  cases x <;> cases y <;> simp only [Fp.sub, Fp.neg, Fp.add]
  case inf.inf s t => cases s <;> cases t <;> rfl
  case inf.fin s t n => rfl
  case fin.inf s m t => rfl
  case fin.fin s m t n =>
    rw [Fp.vInt_not t n, Fp.vInt_not s m]
    by_cases h : Fp.vInt s m + -Fp.vInt t n = 0
    · have h' : Fp.vInt t n + -Fp.vInt s m = 0 := by omega
      rw [if_pos h, if_pos h']
      rfl
    · have h' : ¬ Fp.vInt t n + -Fp.vInt s m = 0 := by omega
      rw [if_neg h, if_neg h']
      rw [Fp.abs_roundM, Fp.abs_roundM]
      have hm : (Fp.vInt t n + -Fp.vInt s m).natAbs
          = (Fp.vInt s m + -Fp.vInt t n).natAbs := by omega
      rw [hm]

/-- `matchesM` declares a match exactly when the `close` boolean is true. -/
theorem CloseTo.isMatch_matchesM (fmt : FpFormat) (self : CloseTo) (actual : Fp) :
    isMatch (CloseTo.matchesM fmt self actual) = CloseTo.closeB fmt self actual := by
  unfold CloseTo.matchesM
  split <;> simp_all [isMatch, success]

/-- C2: for every floating-point value `x` and every epsilon,
`close_to(NaN, eps).matches(x)` is a mismatch and
`close_to(x, eps).matches(NaN)` is a mismatch; in particular NaN never
matches NaN itself. -/
theorem close_to_nan_never_matches (fmt : FpFormat) (eps x : Fp) :
    isMatch (CloseTo.matchesM fmt (close_to Fp.nan eps) x) = false ∧
    isMatch (CloseTo.matchesM fmt (close_to x eps) Fp.nan) = false := by
  constructor <;> rw [CloseTo.isMatch_matchesM] <;> cases x <;>
    simp [CloseTo.closeB, close_to, Fp.abs, Fp.sub, Fp.neg, Fp.add, Fp.beq,
      Fp.blt, Fp.div, Fp.zero, Fp.min, Fp.mul]

/-- C3: for every non-NaN floating-point value `x` (finite or infinite) and
every epsilon, `close_to(x, eps).matches(x)` is a match; in particular each
infinity matches itself regardless of epsilon. -/
theorem close_to_self_matches (fmt : FpFormat) (eps x : Fp)
    (h : x.isNan = false) :
    CloseTo.matchesM fmt (close_to x eps) x = success := by
  cases x with
  | nan => simp [Fp.isNan] at h
  | inf s =>
    simp [CloseTo.matchesM, CloseTo.closeB, close_to, Fp.abs, Fp.beq]
  | fin s m =>
    simp [CloseTo.matchesM, CloseTo.closeB, close_to, Fp.abs, Fp.beq]

/-- Witness for C3 at `x = +inf`, `eps = 1e-5_f64`. -/
theorem close_to_self_matches_witness :
    (Fp.inf false).isNan = false ∧
    CloseTo.matchesM fmt64 (close_to (Fp.inf false) (fpOfPos fmt64 1 (10 ^ 5)))
      (Fp.inf false) = success :=
  ⟨rfl, close_to_self_matches fmt64 (fpOfPos fmt64 1 (10 ^ 5)) (Fp.inf false) rfl⟩

/-- C4: the pass/fail outcome of `close_to(x, eps).matches(y)` equals that
of `close_to(y, eps).matches(x)` (proved for all values, in particular for
the finite ones the claim quantifies over). -/
theorem close_to_symmetric (fmt : FpFormat) (eps x y : Fp) :
    isMatch (CloseTo.matchesM fmt (close_to x eps) y) =
      isMatch (CloseTo.matchesM fmt (close_to y eps) x) := by
  rw [CloseTo.isMatch_matchesM, CloseTo.isMatch_matchesM]
  show CloseTo.closeB fmt (close_to x eps) y = CloseTo.closeB fmt (close_to y eps) x
  simp only [CloseTo.closeB, close_to]
  rw [Fp.beq_comm x.abs y.abs, Fp.abs_sub_comm fmt x.abs y.abs,
    Fp.add_comm fmt x.abs y.abs]
  cases Fp.beq x.abs Fp.zero <;> cases Fp.beq y.abs Fp.zero <;> simp

/-- C7: the outcome of `matches` is invariant under negating either
argument, because only absolute values enter the comparison; in particular
`close_to(-1.0, 1e-5)` matches `1.0` and `close_to(-inf, eps)` matches
`+inf`. -/
theorem close_to_abs_invariant (fmt : FpFormat) (eps x y : Fp) :
    (isMatch (CloseTo.matchesM fmt (close_to (Fp.neg x) eps) y) =
        isMatch (CloseTo.matchesM fmt (close_to x eps) y)) ∧
    (isMatch (CloseTo.matchesM fmt (close_to x eps) (Fp.neg y)) =
        isMatch (CloseTo.matchesM fmt (close_to x eps) y)) ∧
    CloseTo.matchesM fmt64
      (close_to (Fp.fin true (2 ^ 1074)) (fpOfPos fmt64 1 (10 ^ 5)))
      (Fp.fin false (2 ^ 1074)) = success ∧
    CloseTo.matchesM fmt64
      (close_to (Fp.inf true) (fpOfPos fmt64 1 (10 ^ 5)))
      (Fp.inf false) = success := by
  refine ⟨?_, ?_, by decide, by decide⟩ <;>
    rw [CloseTo.isMatch_matchesM, CloseTo.isMatch_matchesM] <;>
    simp only [CloseTo.closeB, close_to, Fp.abs_neg]

/-- C8: `matches` always returns a definite match-or-mismatch outcome
(total function, no panic) for every input triple, NaN, infinities, zeros
and subnormals included. -/
theorem close_to_total (fmt : FpFormat) (self : CloseTo) (actual : Fp) :
    CloseTo.matchesM fmt self actual = success ∨
    ∃ s, CloseTo.matchesM fmt self actual = Except.error s := by
  unfold CloseTo.matchesM
  split
  · exact Or.inl rfl
  · exact Or.inr ⟨_, rfl⟩

/-- C9: whenever `matches` does not declare a match, the result is an error
carrying the diagnostic string `"was "` followed by the actual value's
debug representation. -/
theorem close_to_mismatch_message (fmt : FpFormat) (self : CloseTo)
    (actual : Fp) (h : isMatch (CloseTo.matchesM fmt self actual) = false) :
    CloseTo.matchesM fmt self actual =
      Except.error ("was " ++ actual.debugStr) := by
  rw [CloseTo.isMatch_matchesM] at h
  unfold CloseTo.matchesM
  simp [h]

/-- Witness for C9 at `close_to(1.0, 1e-5).matches(2.0)` in binary64. -/
theorem close_to_mismatch_message_witness :
    isMatch (CloseTo.matchesM fmt64
        (close_to (Fp.fin false (2 ^ 1074)) (fpOfPos fmt64 1 (10 ^ 5)))
        (Fp.fin false (2 ^ 1075))) = false ∧
    CloseTo.matchesM fmt64
        (close_to (Fp.fin false (2 ^ 1074)) (fpOfPos fmt64 1 (10 ^ 5)))
        (Fp.fin false (2 ^ 1075)) =
      Except.error ("was " ++ (Fp.fin false (2 ^ 1075)).debugStr) :=
  ⟨by decide, close_to_mismatch_message fmt64
      (close_to (Fp.fin false (2 ^ 1074)) (fpOfPos fmt64 1 (10 ^ 5)))
      (Fp.fin false (2 ^ 1075)) (by decide)⟩

/-- C1 counterexample: with binary64 inputs `expected = 0.0`,
`epsilon = 2.0`, `actual = 1.0`, the exact-equality branch fails and
`a == 0` holds, `d < epsilon * MIN_POSITIVE` is false — so the claim says
the result is a mismatch with the relative-error branch never consulted —
yet `matches` declares a match, through the relative-error branch
(`1.0 / 1.0 < 2.0`).  A second instance with an epsilon below one:
`expected = 2^-971`, `epsilon = 0.25`, `actual = 2^-971 + 2^-1023`
(so `d = 2^-1023` is subnormal and the guard holds, the near-zero threshold
test fails, and the relative error `2^-53` is far below epsilon). -/
theorem close_to_near_zero_only_counterexample :
    Fp.beq (close_to Fp.zero (Fp.fin false (2 ^ 1075))).expected.abs
        (Fp.fin false (2 ^ 1074)).abs = false ∧
    Fp.beq (close_to Fp.zero (Fp.fin false (2 ^ 1075))).expected.abs
        Fp.zero = true ∧
    Fp.blt ((Fp.sub fmt64 (close_to Fp.zero (Fp.fin false (2 ^ 1075))).expected.abs
          (Fp.fin false (2 ^ 1074)).abs).abs)
        (Fp.mul fmt64 (close_to Fp.zero (Fp.fin false (2 ^ 1075))).epsilon
          (Fp.minPositiveValue fmt64)) = false ∧
    CloseTo.matchesM fmt64 (close_to Fp.zero (Fp.fin false (2 ^ 1075)))
        (Fp.fin false (2 ^ 1074)) = success ∧
    Fp.beq (close_to (Fp.fin false (2 ^ 103)) (Fp.fin false (2 ^ 1072))).expected.abs
        (Fp.fin false (2 ^ 103 + 2 ^ 51)).abs = false ∧
    Fp.blt ((Fp.sub fmt64
          (close_to (Fp.fin false (2 ^ 103)) (Fp.fin false (2 ^ 1072))).expected.abs
          (Fp.fin false (2 ^ 103 + 2 ^ 51)).abs).abs)
        (Fp.minPositiveValue fmt64) = true ∧
    Fp.blt ((Fp.sub fmt64
          (close_to (Fp.fin false (2 ^ 103)) (Fp.fin false (2 ^ 1072))).expected.abs
          (Fp.fin false (2 ^ 103 + 2 ^ 51)).abs).abs)
        (Fp.mul fmt64
          (close_to (Fp.fin false (2 ^ 103)) (Fp.fin false (2 ^ 1072))).epsilon
          (Fp.minPositiveValue fmt64)) = false ∧
    CloseTo.matchesM fmt64
        (close_to (Fp.fin false (2 ^ 103)) (Fp.fin false (2 ^ 1072)))
        (Fp.fin false (2 ^ 103 + 2 ^ 51)) = success := by
  decide

/-- C1 amended: when the exact-equality branch `a == b` fails and the
near-zero guard (`a == 0` or `b == 0` or `d < MIN_POSITIVE`) holds,
`matches` declares a match exactly when `d < epsilon * MIN_POSITIVE` or the
relative-error branch `d / min(a + b, MAX) < epsilon` succeeds: the
relative-error branch is still consulted when the near-zero threshold test
fails. -/
theorem close_to_near_zero_branch_amended (fmt : FpFormat) (self : CloseTo)
    (actual : Fp)
    (h1 : Fp.beq self.expected.abs actual.abs = false)
    (h2 : (Fp.beq self.expected.abs Fp.zero || Fp.beq actual.abs Fp.zero ||
        Fp.blt ((Fp.sub fmt self.expected.abs actual.abs).abs)
          (Fp.minPositiveValue fmt)) = true) :
    isMatch (CloseTo.matchesM fmt self actual) =
      (Fp.blt ((Fp.sub fmt self.expected.abs actual.abs).abs)
          (Fp.mul fmt self.epsilon (Fp.minPositiveValue fmt)) ||
        Fp.blt (Fp.div fmt ((Fp.sub fmt self.expected.abs actual.abs).abs)
            (Fp.min (Fp.add fmt self.expected.abs actual.abs)
              (Fp.maxValue fmt)))
          self.epsilon) := by
  rw [CloseTo.isMatch_matchesM]
  simp only [CloseTo.closeB]
  rw [h1, h2]
  simp

/-- Witness for the amended C1 at the counterexample input
(binary64, `expected = 0.0`, `epsilon = 2.0`, `actual = 1.0`). -/
theorem close_to_near_zero_branch_amended_witness :
    Fp.beq (close_to Fp.zero (Fp.fin false (2 ^ 1075))).expected.abs
        (Fp.fin false (2 ^ 1074)).abs = false ∧
    (Fp.beq (close_to Fp.zero (Fp.fin false (2 ^ 1075))).expected.abs Fp.zero ||
      Fp.beq (Fp.fin false (2 ^ 1074)).abs Fp.zero ||
      Fp.blt ((Fp.sub fmt64 (close_to Fp.zero (Fp.fin false (2 ^ 1075))).expected.abs
          (Fp.fin false (2 ^ 1074)).abs).abs) (Fp.minPositiveValue fmt64)) = true ∧
    isMatch (CloseTo.matchesM fmt64 (close_to Fp.zero (Fp.fin false (2 ^ 1075)))
        (Fp.fin false (2 ^ 1074))) =
      (Fp.blt ((Fp.sub fmt64 (close_to Fp.zero (Fp.fin false (2 ^ 1075))).expected.abs
          (Fp.fin false (2 ^ 1074)).abs).abs)
        (Fp.mul fmt64 (close_to Fp.zero (Fp.fin false (2 ^ 1075))).epsilon
          (Fp.minPositiveValue fmt64)) ||
      Fp.blt (Fp.div fmt64 ((Fp.sub fmt64
            (close_to Fp.zero (Fp.fin false (2 ^ 1075))).expected.abs
            (Fp.fin false (2 ^ 1074)).abs).abs)
          (Fp.min (Fp.add fmt64 (close_to Fp.zero (Fp.fin false (2 ^ 1075))).expected.abs
            (Fp.fin false (2 ^ 1074)).abs) (Fp.maxValue fmt64)))
        (close_to Fp.zero (Fp.fin false (2 ^ 1075))).epsilon) :=
  ⟨by decide, by decide,
    close_to_near_zero_branch_amended fmt64
      (close_to Fp.zero (Fp.fin false (2 ^ 1075))) (Fp.fin false (2 ^ 1074))
      (by decide) (by decide)⟩

/-- C5: when neither the exact-equality branch nor the near-zero branch
declares a match, `matches` declares a match exactly when
`d / min(a + b, MAX) < epsilon` holds strictly. -/
theorem close_to_relative_branch (fmt : FpFormat) (self : CloseTo)
    (actual : Fp)
    (h1 : Fp.beq self.expected.abs actual.abs = false)
    (h2 : ((Fp.beq self.expected.abs Fp.zero || Fp.beq actual.abs Fp.zero ||
          Fp.blt ((Fp.sub fmt self.expected.abs actual.abs).abs)
            (Fp.minPositiveValue fmt)) &&
        Fp.blt ((Fp.sub fmt self.expected.abs actual.abs).abs)
          (Fp.mul fmt self.epsilon (Fp.minPositiveValue fmt))) = false) :
    isMatch (CloseTo.matchesM fmt self actual) =
      Fp.blt (Fp.div fmt ((Fp.sub fmt self.expected.abs actual.abs).abs)
          (Fp.min (Fp.add fmt self.expected.abs actual.abs)
            (Fp.maxValue fmt)))
        self.epsilon := by
  rw [CloseTo.isMatch_matchesM]
  simp only [CloseTo.closeB]
  rw [h1, h2]
  simp

/-- Witness for C5 at binary64 near-maximum inputs `expected = MAX`,
`actual = MAX - 2^41 ulp`, `epsilon = 2^-10`: the denominator sum `a + b`
overflows to infinity, the `min` with `MAX` caps it, and the outcome is a
match rather than a spurious overflow-driven mismatch. -/
theorem close_to_relative_branch_witness :
    Fp.beq (close_to (Fp.maxValue fmt64) (Fp.fin false (2 ^ 1064))).expected.abs
        (Fp.fin false ((2 ^ 53 - 1 - 2 ^ 41) * 2 ^ 2045)).abs = false ∧
    ((Fp.beq (close_to (Fp.maxValue fmt64) (Fp.fin false (2 ^ 1064))).expected.abs
          Fp.zero ||
        Fp.beq (Fp.fin false ((2 ^ 53 - 1 - 2 ^ 41) * 2 ^ 2045)).abs Fp.zero ||
        Fp.blt ((Fp.sub fmt64
            (close_to (Fp.maxValue fmt64) (Fp.fin false (2 ^ 1064))).expected.abs
            (Fp.fin false ((2 ^ 53 - 1 - 2 ^ 41) * 2 ^ 2045)).abs).abs)
          (Fp.minPositiveValue fmt64)) &&
      Fp.blt ((Fp.sub fmt64
          (close_to (Fp.maxValue fmt64) (Fp.fin false (2 ^ 1064))).expected.abs
          (Fp.fin false ((2 ^ 53 - 1 - 2 ^ 41) * 2 ^ 2045)).abs).abs)
        (Fp.mul fmt64 (close_to (Fp.maxValue fmt64) (Fp.fin false (2 ^ 1064))).epsilon
          (Fp.minPositiveValue fmt64))) = false ∧
    Fp.add fmt64 (close_to (Fp.maxValue fmt64) (Fp.fin false (2 ^ 1064))).expected.abs
        (Fp.fin false ((2 ^ 53 - 1 - 2 ^ 41) * 2 ^ 2045)).abs = Fp.inf false ∧
    isMatch (CloseTo.matchesM fmt64
        (close_to (Fp.maxValue fmt64) (Fp.fin false (2 ^ 1064)))
        (Fp.fin false ((2 ^ 53 - 1 - 2 ^ 41) * 2 ^ 2045))) = true :=
  ⟨by decide, by decide, by decide,
    (close_to_relative_branch fmt64
        (close_to (Fp.maxValue fmt64) (Fp.fin false (2 ^ 1064)))
        (Fp.fin false ((2 ^ 53 - 1 - 2 ^ 41) * 2 ^ 2045))
        (by decide) (by decide)).trans (by decide)⟩

/-- C6: for binary32, `close_to(0.0, 0.01).matches(1e-40)` is a match while
`close_to(0.0, 0.000001).matches(1e-40)` is a mismatch; the subnormal falls
into the near-zero branch (`a == 0`) and the outcome is decided by whether
`1e-40 < epsilon * MIN_POSITIVE` for the given epsilon. -/
theorem close_to_subnormal_near_zero :
    CloseTo.matchesM fmt32 (close_to Fp.zero (fpOfPos fmt32 1 100))
        (fpOfPos fmt32 1 (10 ^ 40)) = success ∧
    isMatch (CloseTo.matchesM fmt32 (close_to Fp.zero (fpOfPos fmt32 1 (10 ^ 6)))
        (fpOfPos fmt32 1 (10 ^ 40))) = false ∧
    Fp.beq (close_to Fp.zero (fpOfPos fmt32 1 100)).expected.abs Fp.zero = true ∧
    Fp.blt ((Fp.sub fmt32 Fp.zero.abs (fpOfPos fmt32 1 (10 ^ 40)).abs).abs)
        (Fp.mul fmt32 (fpOfPos fmt32 1 100) (Fp.minPositiveValue fmt32)) = true ∧
    Fp.blt ((Fp.sub fmt32 Fp.zero.abs (fpOfPos fmt32 1 (10 ^ 40)).abs).abs)
        (Fp.mul fmt32 (fpOfPos fmt32 1 (10 ^ 6)) (Fp.minPositiveValue fmt32)) = false := by
  decide

/-- C10: the matcher built by `type_of::<T>()` matches exactly the values
whose runtime type identifier equals the stored one, ignores the argument's
value, and on mismatch reports the applied value's type identifier. -/
theorem type_of_matches_type_only {α : Type} (t u : TypeId) (v w : α) :
    ((type_of t).matchesM u v = success ↔ u = t) ∧
    (type_of t).matchesM u v = (type_of t).matchesM u w ∧
    (u ≠ t → (type_of t).matchesM u v =
      Except.error ("type_of(" ++ toString u.id ++ ")")) := by
  refine ⟨?_, rfl, ?_⟩
  · unfold type_of TypeOf.matchesM
    by_cases h : t = u
    · rw [if_pos h]
      exact ⟨fun _ => h.symm, fun _ => rfl⟩
    · rw [if_neg h]
      constructor
      · intro he
        simp [success] at he
      · intro hu
        exact absurd hu.symm h
  · intro hne
    unfold type_of TypeOf.matchesM
    rw [if_neg (fun hh => hne hh.symm)]

/-- Witness for C10 at concrete type identifiers 0 and 1 and values 0, 1. -/
theorem type_of_matches_type_only_witness :
    (type_of (TypeId.mk 0)).matchesM (TypeId.mk 0) (0 : ℕ) = success ∧
    (type_of (TypeId.mk 0)).matchesM (TypeId.mk 1) (0 : ℕ) =
      Except.error ("type_of(" ++ toString (TypeId.mk 1).id ++ ")") :=
  ⟨(type_of_matches_type_only (TypeId.mk 0) (TypeId.mk 0) (0 : ℕ) (1 : ℕ)).1.mpr rfl,
    (type_of_matches_type_only (TypeId.mk 0) (TypeId.mk 1) (0 : ℕ) (1 : ℕ)).2.2
      (by decide)⟩

end Hamcrest
